import Mathlib

/-!
Shallow embedding of the session auto-lock controller
(`src/components/AppLocked.tsx`) of the repository.

The component is a React function component; its state lives in hooks
(`useFlag`, `useState`, `useRef`). We embed that state as a `State`
structure and every event handler as a pure function
`... → State → State × List Effect`, where `Effect` records the
fire-and-forget calls to external collaborators (bottom sheet, in-app
browser, haptics, delegation channel). The module-level environment
flags (`IS_DELEGATED_BOTTOM_SHEET`, `IS_DELEGATING_BOTTOM_SHEET`,
`IS_CAPACITOR`) become a `Ctx` record fixed for a run; the `withGlobal`
props become a `Props` record.
-/

namespace AppLocked

/-- Constant `INTERVAL_CHECK_PERIOD` (AppLocked.tsx line 38): cadence of the
recurring idle check, in milliseconds. -/
def INTERVAL_CHECK_PERIOD : Nat := 5000

/-- Constant `WINDOW_EVENTS_LATENCY` (AppLocked.tsx line 37): throttle interval
for window activity events, in milliseconds. -/
def WINDOW_EVENTS_LATENCY : Nat := 5000

/-- Modelled from the spec: `AutolockValueType` (declared in
`src/global/types`, which is not among the provided sources) is an
enumerated set of autolock options including the sentinel `never`
("AutolockPeriod: enumerated duration value (including a sentinel
never)").  Each non-`never` option carries the duration in
milliseconds that `AUTOLOCK_OPTIONS_LIST` (in `src/config`, also not
provided) associates to it through the lookup on AppLocked.tsx lines
94–96. -/
inductive AutolockValueType where
  | never
  | timed (periodMs : Nat)
deriving DecidableEq, Repr

/-- Modelled from the spec: the `AUTOLOCK_OPTIONS_LIST.find(...)` lookup
(AppLocked.tsx lines 94–96) resolving an autolock option to its period in
milliseconds; the `never` sentinel "disables locking entirely", so its
numeric period is only ever consulted behind the lock guard (we give it
the list value 0). -/
def autolockPeriod : AutolockValueType → Nat
  | .never => 0
  | .timed ms => ms

/-- Enum `SLIDES` (AppLocked.tsx lines 58–61): the credential slide.
`button` is the biometric-prompt slide, `passwordForm` the password
form. -/
inductive SLIDES where
  | button
  | passwordForm
deriving DecidableEq, Repr

/-- Outcome of the `verifyPassword` API call
(AppLocked.tsx line 117): the service resolves to `true`
(`accepted`), resolves to `false` (`rejected`), or fails so that
`callApi` yields `undefined` (`unavailable`).  The handler only ever
tests the result for truthiness (`if (!result)`). -/
inductive VerifyResult where
  | accepted
  | rejected
  | unavailable
deriving DecidableEq, Repr

/-- Truthiness of the verification outcome as tested by
`if (!result)` on AppLocked.tsx line 119. -/
def VerifyResult.isTruthy : VerifyResult → Bool
  | .accepted => true
  | _ => false

/-- Fire-and-forget calls to external collaborators, in issue order. -/
inductive Effect where
  | bottomSheetShow
  | bottomSheetHide
  | inAppBrowserShow
  | inAppBrowserHide
  | vibrateOnSuccess
  | submitAppLockActivityEvent
deriving DecidableEq, Repr

/-- Module-level environment flags of AppLocked.tsx (imported from
`../util/windowEnvironment` and `../config`), fixed per context. -/
structure Ctx where
  isDelegatedBottomSheet : Bool
  isDelegatingBottomSheet : Bool
  isCapacitor : Bool
deriving DecidableEq, Repr

/-- The `StateProps` of the component (AppLocked.tsx lines 51–56) as
delivered by `withGlobal`; `autolockValue` and `isHardwareAccount` are
optional there. -/
structure Props where
  isNonNativeBiometricAuthEnabled : Bool
  autolockValue : Option AutolockValueType
  isHardwareAccount : Option Bool
deriving DecidableEq, Repr

/-- Destructuring default of `autolockValue` to `never`
(AppLocked.tsx line 70). -/
def resolvedAutolock (p : Props) : AutolockValueType :=
  p.autolockValue.getD .never

/-- Truthiness of the optional `isHardwareAccount` prop
(`undefined` is falsy). -/
def isHardware (p : Props) : Bool :=
  p.isHardwareAccount.getD false

/-- Guard expression comparing `autolockValue` against `never` and negating
`isHardwareAccount`,
used verbatim both for the initial lock flag (line 78) and inside
`handleLock` (line 101). -/
def lockGuard (p : Props) : Bool :=
  (resolvedAutolock p != AutolockValueType.never) && !(isHardware p)

/-- Mutable state of the component: `isLocked` / `shouldRenderUi`
(`useFlag`, lines 78–79), `lastActivityTime` (`useRef(Date.now())`,
line 80), `slideForBiometricAuth` (`useState`, lines 81–83),
`passwordError` (`useState`, line 84), and the global cached
"PIN accepted" flag toggled through the `setIsPinAccepted` /
`clearIsPinAccepted` actions. -/
structure State where
  isLocked : Bool
  shouldRenderUi : Bool
  lastActivityTime : Nat
  slideForBiometricAuth : SLIDES
  passwordError : String
  isPinAccepted : Bool
deriving DecidableEq, Repr

/-- Initial state of the component (AppLocked.tsx lines 78–84): locked
iff the guard holds, UI rendered iff locked, last activity = now, slide
`button` iff background mode is active, no error. -/
def initState (p : Props) (now : Nat) (backgroundActive : Bool) : State :=
  { isLocked := lockGuard p
    shouldRenderUi := lockGuard p
    lastActivityTime := now
    slideForBiometricAuth := if backgroundActive then .button else .passwordForm
    passwordError := ""
    isPinAccepted := false }

/-- Handler `handleLock` (AppLocked.tsx lines 100–108): under the guard, set the
lock flag, render the UI, hide the delegated sheet when delegating, and
hide the in-app browser; in every case reset the slide to `button`. -/
def handleLock (ctx : Ctx) (p : Props) (s : State) : State × List Effect :=
  let (s1, effs) :=
    if lockGuard p then
      ({ s with isLocked := true, shouldRenderUi := true },
        (if ctx.isDelegatingBottomSheet then [Effect.bottomSheetHide] else [])
          ++ [Effect.inAppBrowserHide])
    else (s, [])
  ({ s1 with slideForBiometricAuth := .button }, effs)

/-- Handler `handleChangeSlideForBiometricAuth` (AppLocked.tsx lines 112–114). -/
def handleChangeSlideForBiometricAuth (s : State) : State :=
  { s with slideForBiometricAuth := .passwordForm }

/-- Handler `handleSubmitPassword` (AppLocked.tsx lines 116–129): a falsy
verification result sets the generic error and returns; otherwise, on
Capacitor the PIN-accepted flag is set and a success haptic fired, then
`unlock()` clears the lock flag. -/
def handleSubmitPassword (ctx : Ctx) (result : VerifyResult) (s : State) :
    State × List Effect :=
  if !result.isTruthy then
    ({ s with passwordError := "Wrong password, please try again." }, [])
  else
    let (s1, effs) :=
      if ctx.isCapacitor then
        ({ s with isPinAccepted := true }, [Effect.vibrateOnSuccess])
      else (s, [])
    ({ s1 with isLocked := false }, effs)

/-- Handler `handlePasswordChange` (AppLocked.tsx line 131). -/
def handlePasswordChange (s : State) : State :=
  { s with passwordError := "" }

/-- Handler `handleActivity` (AppLocked.tsx lines 133–139): in a delegated
bottom sheet, forward the activity event to the primary context and
return; otherwise record the current time as last activity. -/
def handleActivity (ctx : Ctx) (now : Nat) (s : State) : State × List Effect :=
  if ctx.isDelegatedBottomSheet then
    (s, [Effect.submitAppLockActivityEvent])
  else
    ({ s with lastActivityTime := now }, [])

/-- Callback `afterUnlockCallback` (AppLocked.tsx lines 86–92), invoked by
`useShowTransition(isLocked, afterUnlockCallback, ...)` (line 98) once
the exit transition of the lock overlay completes: hide the UI, reset the
slide to `button`, show the in-app browser, clear the PIN-accepted
flag, and when delegating show the bottom sheet again. -/
def afterUnlockCallback (ctx : Ctx) (s : State) : State × List Effect :=
  ({ s with
      shouldRenderUi := false
      slideForBiometricAuth := .button
      isPinAccepted := false },
    [Effect.inAppBrowserShow]
      ++ (if ctx.isDelegatingBottomSheet then [Effect.bottomSheetShow] else []))

/-- The unlock-success transition as a whole: `unlock()` clears the lock
flag (line 128), and the exit transition of the overlay then runs
`afterUnlockCallback` (line 98). -/
def unlockSuccess (ctx : Ctx) (s : State) : State × List Effect :=
  afterUnlockCallback ctx { s with isLocked := false }

/-- Whether the recurring idle-check interval is started at all, from
the effect on AppLocked.tsx lines 161–170: the effect bails out exactly
when `IS_DELEGATED_BOTTOM_SHEET`, and otherwise always calls
`setInterval`. -/
def intervalStarted (ctx : Ctx) : Bool :=
  !ctx.isDelegatedBottomSheet

/-- One firing of the recurring check (AppLocked.tsx lines 161–170): in
a delegated context the interval was never started; otherwise, when
unlocked and idle strictly longer than the autolock period, run
`handleLock`. -/
def intervalTick (ctx : Ctx) (p : Props) (now : Nat) (s : State) :
    State × List Effect :=
  if ctx.isDelegatedBottomSheet then (s, [])
  else if !s.isLocked && decide (autolockPeriod (resolvedAutolock p) < now - s.lastActivityTime) then
    handleLock ctx p s
  else (s, [])

/-- The time of the k-th firing (0-based) of the interval started at
`start` (AppLocked.tsx line 164–168): `setInterval` with period
`INTERVAL_CHECK_PERIOD` first fires one period after start. -/
def tickTime (start k : Nat) : Nat :=
  start + INTERVAL_CHECK_PERIOD * (k + 1)

/-- Modelled from the spec: `useBackgroundMode` (in
`src/hooks/useBackgroundMode`, not among the provided sources)
subscribes to the "entered background" / "returned to
foreground" transitions, taking one callback for each in that order.
AppLocked.tsx line 172 passes `undefined` for the first slot, so
entering background runs no component code at all. -/
def onEnteredBackground (s : State) : State := s

/-- Modelled from the spec: the second `useBackgroundMode` slot
(returning to foreground); AppLocked.tsx line 172 wires it to
`handleChangeSlideForBiometricAuth`. -/
def onReturnedToForeground (s : State) : State :=
  handleChangeSlideForBiometricAuth s

/-- The externally triggerable events of one context, for reasoning
about whole executions. `transitionEnd` is the completion of the lock
overlay exit transition, which fires `afterUnlockCallback` only when
the component has become unlocked (`useShowTransition`, line 98). -/
inductive Event where
  | activity (now : Nat)
  | tick (now : Nat)
  | lockCall
  | submit (result : VerifyResult)
  | passwordEdit
  | changeSlide
  | transitionEnd
  | enteredBackground
  | returnedToForeground
deriving DecidableEq, Repr

/-- One step of the machine: dispatch an event to its handler. -/
def step (ctx : Ctx) (p : Props) (s : State) : Event → State × List Effect
  | .activity now => handleActivity ctx now s
  | .tick now => intervalTick ctx p now s
  | .lockCall => handleLock ctx p s
  | .submit r => handleSubmitPassword ctx r s
  | .passwordEdit => (handlePasswordChange s, [])
  | .changeSlide => (handleChangeSlideForBiometricAuth s, [])
  | .transitionEnd => if s.isLocked then (s, []) else afterUnlockCallback ctx s
  | .enteredBackground => (onEnteredBackground s, [])
  | .returnedToForeground => (onReturnedToForeground s, [])

/-- Run a sequence of events, keeping only the state. -/
def runEvents (ctx : Ctx) (p : Props) (s : State) : List Event → State
  | [] => s
  | e :: rest => runEvents ctx p (step ctx p s e).1 rest

end AppLocked

namespace AppLocked

/-- Helper: the lock guard fails exactly when the resolved autolock
option is the sentinel or the account is hardware-backed. -/
theorem lockGuard_eq_false_iff (p : Props) :
    lockGuard p = false ↔
      (resolvedAutolock p = AutolockValueType.never ∨ isHardware p = true) := by
  simp [lockGuard, bne_iff_ne, Bool.and_eq_false_iff]
  tauto

/-- Helper: the lock guard holds exactly when the resolved autolock
option is not the sentinel and the account is not hardware-backed. -/
theorem lockGuard_eq_true_iff (p : Props) :
    lockGuard p = true ↔
      (resolvedAutolock p ≠ AutolockValueType.never ∧ isHardware p = false) := by
  simp [lockGuard, bne_iff_ne]

/-- C1: at component startup, the lock state is Locked iff the configured
autolock value is not the sentinel `never` and the account is not
hardware-backed; in every other configuration the initial state is
Unlocked. -/
theorem startup_locked_iff (p : Props) (now : Nat) (bg : Bool) :
    (initState p now bg).isLocked = true ↔
      (resolvedAutolock p ≠ AutolockValueType.never ∧ isHardware p = false) := by
  simpa [initState] using lockGuard_eq_true_iff p

/-- C4: a throttled activity event in a delegated context forwards an
explicit activity message to the primary context and leaves the local
last-activity timestamp (and all local state) untouched; in a primary
context it records the current time locally and emits no message. -/
theorem handleActivity_delegation (ctx : Ctx) (now : Nat) (s : State) :
    (ctx.isDelegatedBottomSheet = true →
      handleActivity ctx now s = (s, [Effect.submitAppLockActivityEvent]))
    ∧ (ctx.isDelegatedBottomSheet = false →
      handleActivity ctx now s = ({ s with lastActivityTime := now }, [])) := by
  constructor <;> intro h <;> simp [handleActivity, h]

/-- Witness for C4 at a concrete delegated and a concrete primary
context. -/
theorem handleActivity_delegation_witness :
    handleActivity ⟨true, false, false⟩ 7
        ⟨false, false, 0, SLIDES.passwordForm, "", false⟩
      = (⟨false, false, 0, SLIDES.passwordForm, "", false⟩,
          [Effect.submitAppLockActivityEvent])
    ∧ handleActivity ⟨false, false, false⟩ 7
        ⟨false, false, 0, SLIDES.passwordForm, "", false⟩
      = (⟨false, false, 7, SLIDES.passwordForm, "", false⟩, []) :=
  ⟨(handleActivity_delegation ⟨true, false, false⟩ 7
      ⟨false, false, 0, SLIDES.passwordForm, "", false⟩).1 rfl,
    (handleActivity_delegation ⟨false, false, false⟩ 7
      ⟨false, false, 0, SLIDES.passwordForm, "", false⟩).2 rfl⟩

/-- C5: from a locked state, password submission unlocks exactly when the
verification result is accepting; any non-accepting result (rejection or
service failure alike) sets the generic wrong-password message and
leaves the state locked, and a service failure yields exactly the same
outcome as a rejection. -/
theorem submitPassword_fails_closed (ctx : Ctx) (r : VerifyResult) (s : State)
    (h : s.isLocked = true) :
    ((handleSubmitPassword ctx r s).1.isLocked = false ↔ r = VerifyResult.accepted)
    ∧ (r ≠ VerifyResult.accepted →
        (handleSubmitPassword ctx r s).1.isLocked = true
        ∧ (handleSubmitPassword ctx r s).1.passwordError
            = "Wrong password, please try again.")
    ∧ handleSubmitPassword ctx VerifyResult.unavailable s
        = handleSubmitPassword ctx VerifyResult.rejected s := by
  refine ⟨?_, ?_, rfl⟩
  · cases r <;>
      simp [handleSubmitPassword, VerifyResult.isTruthy, h, apply_ite]
  · intro hr
    cases r <;> simp_all [handleSubmitPassword, VerifyResult.isTruthy]

/-- Witness for C5 at a concrete locked state. -/
theorem submitPassword_fails_closed_witness :
    ((handleSubmitPassword ⟨false, false, true⟩ VerifyResult.unavailable
        ⟨true, true, 3, SLIDES.passwordForm, "", false⟩).1.isLocked = false
      ↔ VerifyResult.unavailable = VerifyResult.accepted)
    ∧ (VerifyResult.unavailable ≠ VerifyResult.accepted →
        (handleSubmitPassword ⟨false, false, true⟩ VerifyResult.unavailable
          ⟨true, true, 3, SLIDES.passwordForm, "", false⟩).1.isLocked = true
        ∧ (handleSubmitPassword ⟨false, false, true⟩ VerifyResult.unavailable
            ⟨true, true, 3, SLIDES.passwordForm, "", false⟩).1.passwordError
            = "Wrong password, please try again.")
    ∧ handleSubmitPassword ⟨false, false, true⟩ VerifyResult.unavailable
        ⟨true, true, 3, SLIDES.passwordForm, "", false⟩
      = handleSubmitPassword ⟨false, false, true⟩ VerifyResult.rejected
        ⟨true, true, 3, SLIDES.passwordForm, "", false⟩ :=
  submitPassword_fails_closed ⟨false, false, true⟩ VerifyResult.unavailable
    ⟨true, true, 3, SLIDES.passwordForm, "", false⟩ rfl

/-- C6: a rejected (or failed) password submission never touches the
last-activity timestamp, so the accumulated idle time measured at any
instant is the same before and after the call. -/
theorem submitPassword_rejected_keeps_idle (ctx : Ctx) (r : VerifyResult)
    (s : State) (now : Nat) (h : r ≠ VerifyResult.accepted) :
    (handleSubmitPassword ctx r s).1.lastActivityTime = s.lastActivityTime
    ∧ now - (handleSubmitPassword ctx r s).1.lastActivityTime
        = now - s.lastActivityTime := by
  have hlt : (handleSubmitPassword ctx r s).1.lastActivityTime
      = s.lastActivityTime := by
    cases r <;> simp_all [handleSubmitPassword, VerifyResult.isTruthy]
  exact ⟨hlt, by rw [hlt]⟩

/-- Witness for C6 at a concrete rejected submission. -/
theorem submitPassword_rejected_keeps_idle_witness :
    (handleSubmitPassword ⟨false, false, false⟩ VerifyResult.rejected
        ⟨true, true, 11, SLIDES.passwordForm, "", false⟩).1.lastActivityTime = 11
    ∧ 42 - (handleSubmitPassword ⟨false, false, false⟩ VerifyResult.rejected
        ⟨true, true, 11, SLIDES.passwordForm, "", false⟩).1.lastActivityTime
        = 42 - 11 :=
  submitPassword_rejected_keeps_idle ⟨false, false, false⟩ VerifyResult.rejected
    ⟨true, true, 11, SLIDES.passwordForm, "", false⟩ 42 (by decide)

end AppLocked

namespace AppLocked

/-- Helper: when the lock guard fails, `handleLock` only resets the
slide and emits nothing. -/
theorem handleLock_guard_failed (ctx : Ctx) (p : Props) (s : State)
    (h : lockGuard p = false) :
    handleLock ctx p s = ({ s with slideForBiometricAuth := SLIDES.button }, []) := by
  simp [handleLock, h]

/-- Helper: every single event step preserves the unlocked state when
the lock guard fails. -/
theorem step_keeps_unlocked (ctx : Ctx) (p : Props) (s : State) (e : Event)
    (hguard : lockGuard p = false) (hs : s.isLocked = false) :
    ((step ctx p s e).1).isLocked = false := by
  cases e with
  | activity now =>
      by_cases hd : ctx.isDelegatedBottomSheet <;>
        simp [step, handleActivity, hd, hs]
  | tick now =>
      by_cases hd : ctx.isDelegatedBottomSheet
      · simp [step, intervalTick, hd, hs]
      · by_cases hc : autolockPeriod (resolvedAutolock p) < now - s.lastActivityTime <;>
          simp [step, intervalTick, hd, hs, hc, handleLock_guard_failed ctx p s hguard]
  | lockCall =>
      simp [step, handleLock_guard_failed ctx p s hguard, hs]
  | submit r =>
      cases r <;>
        by_cases hc : ctx.isCapacitor <;>
          simp [step, handleSubmitPassword, VerifyResult.isTruthy, hc, hs]
  | passwordEdit => simp [step, handlePasswordChange, hs]
  | changeSlide => simp [step, handleChangeSlideForBiometricAuth, hs]
  | transitionEnd =>
      simp [step, hs, afterUnlockCallback]
  | enteredBackground => simp [step, onEnteredBackground, hs]
  | returnedToForeground =>
      simp [step, onReturnedToForeground, handleChangeSlideForBiometricAuth, hs]

/-- Helper: the unlocked state is invariant under whole event sequences
when the lock guard fails. -/
theorem runEvents_keeps_unlocked (ctx : Ctx) (p : Props)
    (hguard : lockGuard p = false) :
    ∀ (evs : List Event) (s : State), s.isLocked = false →
      (runEvents ctx p s evs).isLocked = false := by
  intro evs
  induction evs with
  | nil => intro s hs; exact hs
  | cons e rest ih =>
      intro s hs
      exact ih _ (step_keeps_unlocked ctx p s e hguard hs)

/-- C2: for a hardware-backed account or autolock value `never`, the lock
state stays Unlocked across every sequence of activity events, timer
ticks, lock calls, submissions and background transitions, and a direct
`handleLock` call never produces a locked state either. -/
theorem never_or_hardware_stays_unlocked (ctx : Ctx) (p : Props) (s : State)
    (h : resolvedAutolock p = AutolockValueType.never ∨ isHardware p = true)
    (hs : s.isLocked = false) (evs : List Event) :
    (runEvents ctx p s evs).isLocked = false
    ∧ ((handleLock ctx p s).1).isLocked = false := by
  have hguard : lockGuard p = false := (lockGuard_eq_false_iff p).mpr h
  refine ⟨runEvents_keeps_unlocked ctx p hguard evs s hs, ?_⟩
  rw [handleLock_guard_failed ctx p s hguard]
  exact hs

/-- Witness for C2: a `never` configuration stays unlocked across a
concrete run with a huge idle gap, a tick, a direct lock call, a
rejected submission and a background round trip. -/
theorem never_or_hardware_stays_unlocked_witness :
    (runEvents ⟨false, true, false⟩ ⟨false, some AutolockValueType.never, none⟩
        ⟨false, false, 0, SLIDES.passwordForm, "", false⟩
        [Event.tick 99999999, Event.lockCall, Event.activity 5,
          Event.submit VerifyResult.rejected, Event.enteredBackground,
          Event.returnedToForeground, Event.transitionEnd]).isLocked = false
    ∧ ((handleLock ⟨false, true, false⟩ ⟨false, some AutolockValueType.never, none⟩
        ⟨false, false, 0, SLIDES.passwordForm, "", false⟩).1).isLocked = false :=
  never_or_hardware_stays_unlocked ⟨false, true, false⟩
    ⟨false, some AutolockValueType.never, none⟩
    ⟨false, false, 0, SLIDES.passwordForm, "", false⟩
    (Or.inl rfl) rfl _

/-- C3: with any autolock value other than `never`, a non-hardware
account, a primary (non-delegated) context and an unlocked state whose
idle time strictly exceeds the configured period at instant `t`, the
recurring check is running and some firing of the interval started at
`start` occurs after `t` but within one check period of `t`, and that
firing transitions the state to Locked. -/
theorem idle_excess_locks_within_one_period (ctx : Ctx) (p : Props) (s : State)
    (hctx : ctx.isDelegatedBottomSheet = false)
    (hnv : resolvedAutolock p ≠ AutolockValueType.never)
    (hhw : isHardware p = false)
    (hul : s.isLocked = false)
    (start t : Nat) (hst : start ≤ t)
    (hidle : autolockPeriod (resolvedAutolock p) < t - s.lastActivityTime) :
    intervalStarted ctx = true
    ∧ ∃ k, t < tickTime start k ∧ tickTime start k ≤ t + INTERVAL_CHECK_PERIOD
        ∧ ((intervalTick ctx p (tickTime start k) s).1).isLocked = true := by
  have hguard : lockGuard p = true := (lockGuard_eq_true_iff p).mpr ⟨hnv, hhw⟩
  refine ⟨by simp [intervalStarted, hctx], ?_⟩
  refine ⟨(t - start) / INTERVAL_CHECK_PERIOD, ?_, ?_, ?_⟩
  · have hdm := Nat.div_add_mod (t - start) INTERVAL_CHECK_PERIOD
    have hmod : (t - start) % INTERVAL_CHECK_PERIOD < INTERVAL_CHECK_PERIOD :=
      Nat.mod_lt _ (by simp [INTERVAL_CHECK_PERIOD])
    simp only [tickTime, INTERVAL_CHECK_PERIOD] at *
    omega
  · have hdm := Nat.div_add_mod (t - start) INTERVAL_CHECK_PERIOD
    have hmod : (t - start) % INTERVAL_CHECK_PERIOD < INTERVAL_CHECK_PERIOD :=
      Nat.mod_lt _ (by simp [INTERVAL_CHECK_PERIOD])
    simp only [tickTime, INTERVAL_CHECK_PERIOD] at *
    omega
  · have htk : t < tickTime start ((t - start) / INTERVAL_CHECK_PERIOD) := by
      have hdm := Nat.div_add_mod (t - start) INTERVAL_CHECK_PERIOD
      have hmod : (t - start) % INTERVAL_CHECK_PERIOD < INTERVAL_CHECK_PERIOD :=
        Nat.mod_lt _ (by simp [INTERVAL_CHECK_PERIOD])
      simp only [tickTime, INTERVAL_CHECK_PERIOD] at *
      omega
    have hcond : autolockPeriod (resolvedAutolock p)
        < tickTime start ((t - start) / INTERVAL_CHECK_PERIOD) - s.lastActivityTime := by
      omega
    simp [intervalTick, hctx, hul, hcond, handleLock, hguard]

/-- Witness for C3: period 300000 ms, last activity at 0, idle observed
at t = 300001 with the interval started at 0. -/
theorem idle_excess_locks_within_one_period_witness :
    intervalStarted ⟨false, false, false⟩ = true
    ∧ ∃ k, 300001 < tickTime 0 k ∧ tickTime 0 k ≤ 300001 + INTERVAL_CHECK_PERIOD
        ∧ ((intervalTick ⟨false, false, false⟩
            ⟨false, some (AutolockValueType.timed 300000), none⟩
            (tickTime 0 k)
            ⟨false, false, 0, SLIDES.passwordForm, "", false⟩).1).isLocked = true :=
  idle_excess_locks_within_one_period ⟨false, false, false⟩
    ⟨false, some (AutolockValueType.timed 300000), none⟩
    ⟨false, false, 0, SLIDES.passwordForm, "", false⟩
    rfl (by decide) rfl rfl 0 300001 (by omega) (by decide)

/-- C7: from a locked state, the unlock-success transition leaves the
machine Unlocked with the overlay no longer rendered (hidden by the
callback that runs when the exit transition completes), the cached
PIN-accepted flag cleared, the slide reset, the in-app browser restored
exactly once, and the delegated overlay shown exactly once iff the
context is delegating. -/
theorem unlockSuccess_spec (ctx : Ctx) (s : State) (h : s.isLocked = true) :
    (unlockSuccess ctx s).1.isLocked = false
    ∧ (unlockSuccess ctx s).1.shouldRenderUi = false
    ∧ (unlockSuccess ctx s).1.isPinAccepted = false
    ∧ (unlockSuccess ctx s).1.slideForBiometricAuth = SLIDES.button
    ∧ ((unlockSuccess ctx s).2).count Effect.inAppBrowserShow = 1
    ∧ (((unlockSuccess ctx s).2).count Effect.bottomSheetShow
        = if ctx.isDelegatingBottomSheet then 1 else 0) := by
  by_cases hd : ctx.isDelegatingBottomSheet <;>
    simp [unlockSuccess, afterUnlockCallback, hd, List.count_cons]

/-- Witness for C7 at a concrete locked state in a delegating context. -/
theorem unlockSuccess_spec_witness :
    (unlockSuccess ⟨false, true, false⟩
        ⟨true, true, 9, SLIDES.passwordForm, "err", true⟩).1.isLocked = false
    ∧ (unlockSuccess ⟨false, true, false⟩
        ⟨true, true, 9, SLIDES.passwordForm, "err", true⟩).1.shouldRenderUi = false
    ∧ (unlockSuccess ⟨false, true, false⟩
        ⟨true, true, 9, SLIDES.passwordForm, "err", true⟩).1.isPinAccepted = false
    ∧ (unlockSuccess ⟨false, true, false⟩
        ⟨true, true, 9, SLIDES.passwordForm, "err", true⟩).1.slideForBiometricAuth
        = SLIDES.button
    ∧ ((unlockSuccess ⟨false, true, false⟩
        ⟨true, true, 9, SLIDES.passwordForm, "err", true⟩).2).count
          Effect.inAppBrowserShow = 1
    ∧ (((unlockSuccess ⟨false, true, false⟩
        ⟨true, true, 9, SLIDES.passwordForm, "err", true⟩).2).count
          Effect.bottomSheetShow = if (true : Bool) then 1 else 0) :=
  unlockSuccess_spec ⟨false, true, false⟩
    ⟨true, true, 9, SLIDES.passwordForm, "err", true⟩ rfl

end AppLocked

namespace AppLocked

/-- Counterexample to C8: with autolock value `never` in an ordinary
primary context (not a delegated bottom sheet), the recurring idle
check is nevertheless started — the effect on lines 161–170 only bails
out for a delegated context and never consults the autolock value or
the hardware flag. -/
theorem interval_started_despite_never :
    resolvedAutolock ⟨false, some AutolockValueType.never, none⟩
      = AutolockValueType.never
    ∧ intervalStarted ⟨false, false, false⟩ = true :=
  ⟨rfl, rfl⟩

/-- C8 (amended): the recurring idle check is started exactly when the
context is not a delegated bottom sheet, irrespective of the autolock
value and the hardware flag; when the autolock value is `never` or the
account is hardware-backed, no firing of the check ever changes the lock
state (the guard inside `handleLock` blocks the transition). -/
theorem interval_started_iff_not_delegated (ctx : Ctx) (p : Props)
    (now : Nat) (s : State)
    (h : resolvedAutolock p = AutolockValueType.never ∨ isHardware p = true) :
    (intervalStarted ctx = true ↔ ctx.isDelegatedBottomSheet = false)
    ∧ ((intervalTick ctx p now s).1).isLocked = s.isLocked := by
  have hguard : lockGuard p = false := (lockGuard_eq_false_iff p).mpr h
  refine ⟨by simp [intervalStarted], ?_⟩
  by_cases hd : ctx.isDelegatedBottomSheet
  · simp [intervalTick, hd]
  · have hlk := handleLock_guard_failed ctx p s hguard
    unfold intervalTick
    rw [if_neg (by simp [hd])]
    split
    · rw [hlk]
    · rfl

/-- Witness for C8 (amended) at a concrete primary context with autolock
value `never` and a tick occurring after a long idle gap. -/
theorem interval_started_iff_not_delegated_witness :
    (intervalStarted ⟨false, false, false⟩ = true
      ↔ (⟨false, false, false⟩ : Ctx).isDelegatedBottomSheet = false)
    ∧ ((intervalTick ⟨false, false, false⟩
        ⟨false, some AutolockValueType.never, none⟩ 99999999
        ⟨false, false, 0, SLIDES.passwordForm, "", false⟩).1).isLocked
      = (⟨false, false, 0, SLIDES.passwordForm, "", false⟩ : State).isLocked :=
  interval_started_iff_not_delegated ⟨false, false, false⟩
    ⟨false, some AutolockValueType.never, none⟩ 99999999
    ⟨false, false, 0, SLIDES.passwordForm, "", false⟩ (Or.inl rfl)

/-- Counterexample to C9: in the state Locked with the password form
showing, the entering-background notification does not reset the
credential slide to the biometric-prompt slide — no callback is wired
to that notification at all (line 172 passes `undefined` for it), so
the slide stays `passwordForm`, which is not `button`. -/
theorem backgrounding_does_not_reset_slide :
    (onEnteredBackground
        ⟨true, true, 0, SLIDES.passwordForm, "", false⟩).slideForBiometricAuth
      = SLIDES.passwordForm
    ∧ SLIDES.passwordForm ≠ SLIDES.button :=
  ⟨rfl, by decide⟩

/-- C9 (amended): the entering-background notification leaves the whole
component state unchanged in every state; it is the
returning-to-foreground notification that is wired to
`handleChangeSlideForBiometricAuth`, which unconditionally sets the
credential slide to the password form while touching nothing else. -/
theorem background_callbacks_spec (s : State) :
    onEnteredBackground s = s
    ∧ (onReturnedToForeground s).slideForBiometricAuth = SLIDES.passwordForm
    ∧ (onReturnedToForeground s).isLocked = s.isLocked
    ∧ (onReturnedToForeground s).shouldRenderUi = s.shouldRenderUi
    ∧ (onReturnedToForeground s).lastActivityTime = s.lastActivityTime
    ∧ (onReturnedToForeground s).passwordError = s.passwordError :=
  ⟨rfl, rfl, rfl, rfl, rfl, rfl⟩

/-- C10: every `handleLock` call resets the credential slide to the
biometric-prompt slide, even when the lock guard fails; in the
guard-failing case the lock flag, the rendered-UI flag and the effects
are untouched, and an absent autolock configuration defaults to `never`,
making the component start Unlocked with every lock call guard-failing. -/
theorem handleLock_always_resets_slide (ctx : Ctx) (p : Props) (s : State) :
    ((handleLock ctx p s).1).slideForBiometricAuth = SLIDES.button
    ∧ ((resolvedAutolock p = AutolockValueType.never ∨ isHardware p = true) →
        handleLock ctx p s = ({ s with slideForBiometricAuth := SLIDES.button }, []))
    ∧ resolvedAutolock ⟨false, none, none⟩ = AutolockValueType.never
    ∧ (initState ⟨false, none, none⟩ 0 false).isLocked = false := by
  refine ⟨?_, ?_, rfl, rfl⟩
  · by_cases hg : lockGuard p <;> simp [handleLock, hg]
  · intro h
    exact handleLock_guard_failed ctx p s ((lockGuard_eq_false_iff p).mpr h)

/-- Witness for C10 at a hardware-backed configuration: the guard fails,
the slide is still reset, and nothing else changes. -/
theorem handleLock_always_resets_slide_witness :
    ((handleLock ⟨false, true, true⟩ ⟨true, some (AutolockValueType.timed 60000), some true⟩
        ⟨false, false, 4, SLIDES.passwordForm, "", false⟩).1).slideForBiometricAuth
      = SLIDES.button
    ∧ handleLock ⟨false, true, true⟩ ⟨true, some (AutolockValueType.timed 60000), some true⟩
        ⟨false, false, 4, SLIDES.passwordForm, "", false⟩
      = (⟨false, false, 4, SLIDES.button, "", false⟩, []) :=
  ⟨(handleLock_always_resets_slide ⟨false, true, true⟩
      ⟨true, some (AutolockValueType.timed 60000), some true⟩
      ⟨false, false, 4, SLIDES.passwordForm, "", false⟩).1,
    (handleLock_always_resets_slide ⟨false, true, true⟩
      ⟨true, some (AutolockValueType.timed 60000), some true⟩
      ⟨false, false, 4, SLIDES.passwordForm, "", false⟩).2.1 (Or.inr rfl)⟩

end AppLocked
